import Mathlib

/-!
# Verification of the leader_arm_st3215 teleoperation stack

Shallow embedding of the Python sources:

* `sts3215_driver.py` — serial protocol for STS3215 servos: checksum,
  response-frame parsing, position/feedback reads;
* `leader_arm_st3215.py` — the `LeaderArm` class: calibration state,
  config persistence, angle computation with wraparound correction;
* `read_daul_leader.py` / `teleop_dual_main.py` — port resolution by
  serial number or USB location;
* `teleop_main.py` / `teleop_dual_main.py` — gripper mapping and the
  per-tick dispatch decision.

Bytes are `Nat` (< 256 where it matters), Python ints are `Int`,
Python floats are modelled as `ℚ` (every arithmetic step the theorems
touch is exact in binary floating point), dicts are association lists,
and the serial line is a finite `List Nat` of available bytes whose
exhaustion stands for a timeout.
-/

namespace LeaderArmSt3215

/-! ## sts3215_driver.py -/

/-- Checksum from `STSServoDriver._calc_checksum`:
`(~(ID + Length + Instruction/Error + Params)) & 0xFF`.
For a nonnegative total `t`, `(~t) & 0xFF = 255 - t % 256`. -/
def calc_checksum (packet : List Nat) : Nat :=
  255 - packet.sum % 256

/-- Header seek loop of `STSServoDriver._read_response`: scan the incoming
bytes for two consecutive `0xFF` bytes (the `header_count` state machine);
`none` models falling off the available bytes, i.e. the timeout path. -/
def seek_header : List Nat → Option (List Nat)
  | [] => none
  | [_] => none
  | a :: b :: rest =>
    if a == 255 && b == 255 then some rest
    else seek_header (b :: rest)

/-- Body of `STSServoDriver._read_response` after the header: read
`ID, Length`, then `Length` bytes of `Error ++ Params ++ Checksum`;
return the params. Every failure (timeout, truncation, negative
remaining length, servo-id mismatch) yields `none`. The error byte is
only logged and the received checksum is not compared by this routine
(the source skips the comparison "以提高速度"). -/
def read_response (servo_id : Int) (stream : List Nat) : Option (List Nat) :=
  match seek_header stream with
  | none => none
  | some rest =>
    match rest with
    | resp_id :: resp_len :: rest2 =>
      if resp_len < 2 then none
      else if rest2.length < resp_len then none
      else
        let body := rest2.take resp_len
        let params := (body.drop 1).dropLast
        if (resp_id : Int) ≠ servo_id then none
        else some params
    | _ => none

/-- The checksum comparison on a parsed response frame: the received
checksum byte against `calc_checksum` of `[ID, Length, Error] ++ Params`
(the fields `_read_response` extracts from the body). -/
def response_checksum_ok (resp_id resp_len error_byte : Nat)
    (params : List Nat) (recv_checksum : Nat) : Bool :=
  calc_checksum ([resp_id, resp_len, error_byte] ++ params) == recv_checksum

/-- `STSServoDriver.get_position`: read two bytes at address 56; on a
well-formed two-byte response return the little-endian position, else the
sentinel `-1`. -/
def get_position (servo_id : Int) (stream : List Nat) : Int :=
  match read_response servo_id stream with
  | some [a, b] => (a : Int) + (b : Int) * 256
  | _ => -1

/-- Result record of `STSServoDriver.get_feedback`. -/
structure Feedback where
  pos : Nat
  speed : Int
  load : Int
deriving DecidableEq

/-- `STSServoDriver.get_feedback`: read six bytes at address 56; on a
well-formed six-byte response return position, signed speed and signed
load, else the sentinel `none`. -/
def get_feedback (servo_id : Int) (stream : List Nat) : Option Feedback :=
  match read_response servo_id stream with
  | some [p0, p1, s0, s1, l0, l1] =>
    let pos : Nat := p0 + p1 * 256
    let spd0 : Int := (s0 : Int) + (s1 : Int) * 256
    let spd : Int := if spd0 > 32767 then spd0 - 65536 else spd0
    let ld0 : Int := (l0 : Int) + (l1 : Int) * 256
    let ld : Int := if ld0 > 32767 then ld0 - 65536 else ld0
    some ⟨pos, spd, ld⟩
  | _ => none

/-! ## leader_arm_st3215.py -/

/-- Module constant `DEFAULT_CONFIG_FILE` of `leader_arm_st3215.py`. -/
def DEFAULT_CONFIG_FILE : String := "leader_config.json"

/-- The `LeaderArm` instance state: the caller-supplied `config_file`,
the configured servo ids, and the calibration dictionaries. -/
structure LeaderArm where
  config_file : String
  servo_ids : List Int
  home_offsets : List (Int × Int)
  directions : List (Int × Int)
deriving DecidableEq

/-- Default state built in `LeaderArm.__init__` before `load_config`:
offset 2048 and direction 1 for every configured id. -/
def init_arm (servo_ids : List Int) (config_file : String) : LeaderArm :=
  { config_file := config_file
    servo_ids := servo_ids
    home_offsets := servo_ids.map fun id => (id, 2048)
    directions := servo_ids.map fun id => (id, 1) }

/-- First definition of `save_config` in the class body (lines 33–40):
writes to the instance's own `config_file`. -/
def save_config_path_v1 (arm : LeaderArm) : String :=
  arm.config_file

/-- Second definition of `save_config` in the class body (lines 150–157):
writes to the module constant `DEFAULT_CONFIG_FILE`. In Python a later
`def` of the same name in the class body rebinds the attribute, so this
is the method every instance actually calls. -/
def save_config_path (_arm : LeaderArm) : String :=
  DEFAULT_CONFIG_FILE

/-- First definition of `load_config` (lines 43–54): reads the instance's
own `config_file`. -/
def load_config_path_v1 (arm : LeaderArm) : String :=
  arm.config_file

/-- Second, effective definition of `load_config` (lines 159–171): reads
the module constant `DEFAULT_CONFIG_FILE`. -/
def load_config_path (_arm : LeaderArm) : String :=
  DEFAULT_CONFIG_FILE

/-- Observable states of the calibration file: absent, not valid JSON, or
parsed into its two sections (keys still strings, as JSON requires). -/
inductive FileState where
  | missing
  | unparsable
  | parsed (home_offsets : List (String × Int)) (directions : List (String × Int))
deriving DecidableEq

/-- Decimal digit run, most significant first; empty input is rejected
by the caller. -/
def parse_digits_aux : List Char → Nat → Option Nat
  | [], acc => some acc
  | c :: cs, acc =>
    if c.isDigit then parse_digits_aux cs (acc * 10 + (c.toNat - 48))
    else none

/-- A non-empty run of decimal digits, as a number. -/
def parse_digits : List Char → Option Nat
  | [] => none
  | c :: cs => parse_digits_aux (c :: cs) 0

/-- Python's `int(k)` on the plain decimal keys a JSON calibration file
carries: optional sign followed by digits; anything else raises
(yields `none`). -/
def int_of_key (s : String) : Option Int :=
  match s.data with
  | '-' :: ds => (parse_digits ds).map fun n => -(n : Int)
  | '+' :: ds => (parse_digits ds).map fun n => (n : Int)
  | ds => (parse_digits ds).map fun n => (n : Int)

/-- Key conversion of the dict comprehension
`{int(k): v for k, v in section.items()}`: `int(k)` on each key in
order; the first failure raises, so the whole comprehension yields
nothing. -/
def convert_keys : List (String × Int) → Option (List (Int × Int))
  | [] => some []
  | (k, v) :: rest =>
    match int_of_key k with
    | none => none
    | some n => (convert_keys rest).map fun r => (n, v) :: r

/-- Effective `load_config` (second definition): a missing file or a
JSON-level parse failure leaves the state untouched; on parsed content
the two sections are converted and assigned one after the other, so a
conversion failure in `directions` lands after `home_offsets` was
already assigned — exactly the statement order of the source, with the
`except` clause catching the first raise. -/
def load_config (st : LeaderArm) (fs : FileState) : LeaderArm :=
  match fs with
  | .missing => st
  | .unparsable => st
  | .parsed offs dirs =>
    match convert_keys offs with
    | none => st
    | some offMap =>
      match convert_keys dirs with
      | none => { st with home_offsets := offMap }
      | some dirMap => { st with home_offsets := offMap, directions := dirMap }

/-- `LeaderArm.get_raw_positions` with the per-servo driver outcome
abstracted as `reads`: one `(id, raw)` pair per configured id, `-1`
standing for a failed read. -/
def get_raw_positions (st : LeaderArm) (reads : Int → Int) : List (Int × Int) :=
  st.servo_ids.map fun sid => (sid, reads sid)

/-- Wraparound correction inside `LeaderArm.get_angles`: deltas beyond
half the 4096-count revolution are folded back onto the shortest arc. -/
def wrap_delta (delta : Int) : Int :=
  if delta > 2048 then delta - 4096
  else if delta < -2048 then delta + 4096
  else delta

/-- Python's `round(x, 2)` on the exact dyadic values produced here:
round `100 * x` to an integer and divide back. -/
def round2 (x : ℚ) : ℚ :=
  (round (x * 100) : ℤ) / 100

/-- Per-servo body of `LeaderArm.get_angles`: the `-1` sentinel maps to
`none`; otherwise offset lookup (default 2048), wraparound correction,
degrees conversion `delta * (360.0 / 4096.0)`, direction (default 1),
rounding. -/
def angle_of (st : LeaderArm) (sid : Int) (raw_val : Int) : Option ℚ :=
  if raw_val = -1 then none
  else
    let offset := ((st.home_offsets.lookup sid).getD 2048)
    let delta := wrap_delta (raw_val - offset)
    let deg : ℚ := (delta : ℚ) * (360 / 4096)
    let direction := ((st.directions.lookup sid).getD 1)
    some (round2 (deg * (direction : ℚ)))

/-- `LeaderArm.get_angles`: every configured id keyed to its computed
angle (or `none`). -/
def get_angles (st : LeaderArm) (reads : Int → Int) : List (Int × Option ℚ) :=
  (get_raw_positions st reads).map fun p => (p.1, angle_of st p.1 p.2)

/-- Outcome of `LeaderArm.calibrate_home`: the state afterwards, whether
`save_config` ran, and whether the routine reported success. -/
structure CalibResult where
  state : LeaderArm
  persisted : Bool
  success : Bool
deriving DecidableEq

/-- `LeaderArm.calibrate_home`: read all raw positions; if any reading is
the `-1` sentinel, return without mutation or persistence and report the
error; otherwise replace `home_offsets` wholesale with the readings and
persist. -/
def calibrate_home (st : LeaderArm) (reads : Int → Int) : CalibResult :=
  let current_pos := get_raw_positions st reads
  if (current_pos.map Prod.snd).contains (-1) then
    ⟨st, false, false⟩
  else
    ⟨{ st with home_offsets := current_pos }, true, true⟩

/-- Python dict assignment `d[k] = v`: update in place when the key
exists, else append. -/
def dict_set (d : List (Int × Int)) (k v : Int) : List (Int × Int) :=
  if d.any (fun p => p.1 == k) then
    d.map fun p => if p.1 == k then (k, v) else p
  else d ++ [(k, v)]

/-- `LeaderArm.set_direction`: any value other than `1` or `-1` is
rejected before touching the state or the file; otherwise the direction
is stored and `save_config` runs (second component). -/
def set_direction (st : LeaderArm) (servo_id : Int) (direction : Int) :
    LeaderArm × Bool :=
  if direction = 1 ∨ direction = -1 then
    ({ st with directions := dict_set st.directions servo_id direction }, true)
  else (st, false)

/-- States reachable through the calibration workflow the utility menu
offers: construction with defaults, `calibrate_home`, `set_direction`
(with arbitrary arguments each time). -/
inductive Reachable : LeaderArm → Prop
  | init (servo_ids : List Int) (config_file : String) :
      Reachable (init_arm servo_ids config_file)
  | calib (st : LeaderArm) (reads : Int → Int) :
      Reachable st → Reachable (calibrate_home st reads).state
  | setdir (st : LeaderArm) (servo_id direction : Int) :
      Reachable st → Reachable (set_direction st servo_id direction).1

/-- Every stored direction value is `1` or `-1`. -/
def DirInv (st : LeaderArm) : Prop :=
  ∀ p ∈ st.directions, p.2 = 1 ∨ p.2 = -1

/-! ## read_daul_leader.py and teleop_dual_main.py — port resolution -/

/-- One entry of `serial.tools.list_ports.comports()`: the device path,
and the optional serial number and USB location strings. -/
structure PortInfo where
  device : String
  serial_number : Option String
  location : Option String
deriving DecidableEq

/-- Leading-block test on character lists (`needle` starts `hay`). -/
def chars_le : List Char → List Char → Bool
  | [], _ => true
  | _ :: _, [] => false
  | a :: as, b :: bs => a == b && chars_le as bs

/-- Contiguous-substring test on character lists. -/
def chars_sub (needle : List Char) : List Char → Bool
  | [] => needle.isEmpty
  | b :: bs => chars_le needle (b :: bs) || chars_sub needle bs

/-- Python's `needle in hay` on strings: contiguous substring. -/
def str_in (needle hay : String) : Bool :=
  chars_sub needle.data hay.data

/-- `find_port` of `read_daul_leader.py`: one pass over the enumerated
ports; per port, first the exact serial comparison, then (when the
location is present and non-empty, Python truthiness) the substring
test; the first port passing either test is returned. -/
def find_port (identifier : String) : List PortInfo → Option String
  | [] => none
  | p :: ps =>
    if p.serial_number == some identifier then some p.device
    else
      match p.location with
      | some loc =>
        if !loc.isEmpty && str_in identifier loc then some p.device
        else find_port identifier ps
      | none => find_port identifier ps

/-- Modelled from the spec claim's wording, for comparison with
`find_port`: an exact-serial match anywhere in the list takes priority
over a substring-location match anywhere in the list. -/
def find_port_claim (identifier : String) (ports : List PortInfo) : Option String :=
  match ports.find? (fun p => p.serial_number == some identifier) with
  | some p => some p.device
  | none =>
    (ports.find? (fun p =>
      match p.location with
      | some loc => !loc.isEmpty && str_in identifier loc
      | none => false)).map fun p => p.device

/-- Inner loop of `AutoPortFinder.find_ports` (`teleop_dual_main.py`) for
one target id: missing serial/location default to `""`; per port, the
exact serial comparison and then the exact (not substring) location
comparison; first match wins. -/
def auto_find (target_id : String) : List PortInfo → Option String
  | [] => none
  | p :: ps =>
    let p_sn := p.serial_number.getD ""
    let p_loc := p.location.getD ""
    if target_id == p_sn then some p.device
    else if target_id == p_loc then some p.device
    else auto_find target_id ps

/-! ## teleop_main.py and teleop_dual_main.py — mapping and dispatch -/

/-- `np.clip(x, lo, hi)`. -/
def np_clip (x lo hi : ℚ) : ℚ :=
  min (max x lo) hi

/-- `map_gripper` (identical in `TeleopSystem` and `DualTeleopSystem`):
span `close - open`; a span below `0.1` in magnitude short-circuits to
`0.0` (the divide-by-zero guard), else the linear ratio clipped to
`[0, 1]`. -/
def map_gripper (open_deg close_deg raw_deg : ℚ) : ℚ :=
  let span := close_deg - open_deg
  if |span| < 1 / 10 then 0
  else np_clip ((raw_deg - open_deg) / span) 0 1

/-- The float64 value of `np.pi`. -/
def np_pi : ℚ :=
  884279719003555 / 281474976710656

/-- `deg_to_rad` of both teleop systems. -/
def deg_to_rad (deg : ℚ) : ℚ :=
  deg * (np_pi / 180)

/-- The seven configured joint ids. -/
def ids7 : List Int :=
  [1, 2, 3, 4, 5, 6, 7]

/-- Per-tick dispatch decision, the common body of
`DualTeleopSystem.process_single_arm` and the loop of
`TeleopSystem.run`: when any of the seven angles is `None` the tick
returns without sending; otherwise joints 1–6 are converted to radians,
the gripper angle is mapped, and the action (scaled elementwise by the
direction config) is sent — `some action` models the `send_action`
call, `none` the skipped tick. -/
def process_single_arm (open_deg close_deg : ℚ) (dir_cfg : List ℚ)
    (leader_angles : Int → Option ℚ) : Option (List ℚ) :=
  if (ids7.map leader_angles).any (fun a => a.isNone) then none
  else
    let target_state :=
      (([1, 2, 3, 4, 5, 6] : List Int).map fun i =>
        deg_to_rad ((leader_angles i).getD 0))
      ++ [map_gripper open_deg close_deg ((leader_angles 7).getD 0)]
    some (List.zipWith (· * ·) target_state dir_cfg)

/-! ## Theorems -/

/-- C6: for raw readings and offsets in the encoder range `[0, 4095]`,
the wraparound-corrected delta always lies within half a revolution:
`|wrap_delta (raw - offset)| ≤ 2048`. -/
theorem c6_wraparound_bound (raw offset : Int)
    (h1 : 0 ≤ raw) (h2 : raw ≤ 4095) (h3 : 0 ≤ offset) (h4 : offset ≤ 4095) :
    |wrap_delta (raw - offset)| ≤ 2048 := by
  rw [abs_le]
  unfold wrap_delta
  split_ifs <;> omega

/-- Witness for C6 at the extreme input `raw = 0`, `offset = 4095`. -/
theorem c6_wraparound_bound_witness :
    (0 : Int) ≤ 4095 ∧ |wrap_delta (0 - 4095)| ≤ 2048 :=
  ⟨by decide,
   c6_wraparound_bound 0 4095 (by decide) (by decide) (by decide) (by decide)⟩

/-- C2 (code bug evaluation): the effective `save_config`/`load_config`
are the second definitions in the class body, so two instances built
with the distinct caller-supplied paths `read_daul_leader.main` uses
still persist to and load from the one module-level default file, while
the shadowed first definitions would have used the per-instance paths. -/
theorem c2_shared_config_path :
    save_config_path ⟨"leader_left_config.json", [], [], []⟩ = DEFAULT_CONFIG_FILE ∧
    save_config_path ⟨"leader_right_config.json", [], [], []⟩ = DEFAULT_CONFIG_FILE ∧
    load_config_path ⟨"leader_left_config.json", [], [], []⟩ =
      load_config_path ⟨"leader_right_config.json", [], [], []⟩ ∧
    save_config_path_v1 ⟨"leader_left_config.json", [], [], []⟩ ≠
      save_config_path_v1 ⟨"leader_right_config.json", [], [], []⟩ ∧
    load_config_path_v1 ⟨"leader_left_config.json", [], [], []⟩ ≠
      load_config_path_v1 ⟨"leader_right_config.json", [], [], []⟩ := by
  refine ⟨rfl, rfl, rfl, ?_, ?_⟩ <;> decide

/-- Unfolding equation for `map_gripper` (the `let` reduced away). -/
theorem map_gripper_eq (o c r : ℚ) :
    map_gripper o c r =
      if |c - o| < 1 / 10 then 0 else np_clip ((r - o) / (c - o)) 0 1 :=
  rfl

/-- C9: with a span of magnitude at least `0.1`, `map_gripper` is the
clipped linear ratio, sends `open` to `0` and `close` to `1`, and always
lands in `[0, 1]`; with a smaller span the guard returns `0` for every
raw angle. -/
theorem c9_map_gripper_spec (open_deg close_deg raw_deg : ℚ) :
    (1 / 10 ≤ |close_deg - open_deg| →
      map_gripper open_deg close_deg raw_deg =
        np_clip ((raw_deg - open_deg) / (close_deg - open_deg)) 0 1 ∧
      map_gripper open_deg close_deg open_deg = 0 ∧
      map_gripper open_deg close_deg close_deg = 1 ∧
      0 ≤ map_gripper open_deg close_deg raw_deg ∧
      map_gripper open_deg close_deg raw_deg ≤ 1) ∧
    (|close_deg - open_deg| < 1 / 10 →
      map_gripper open_deg close_deg raw_deg = 0) := by
  constructor
  · intro h
    have hne : close_deg - open_deg ≠ 0 := by
      intro h0
      rw [h0, abs_zero] at h
      norm_num at h
    have hnot : ¬ |close_deg - open_deg| < 1 / 10 := not_lt.mpr h
    refine ⟨by rw [map_gripper_eq, if_neg hnot], ?_, ?_, ?_, ?_⟩
    · rw [map_gripper_eq, if_neg hnot, sub_self, zero_div]
      norm_num [np_clip]
    · rw [map_gripper_eq, if_neg hnot, div_self hne]
      norm_num [np_clip]
    · rw [map_gripper_eq, if_neg hnot]
      exact le_min (le_max_right _ _) zero_le_one
    · rw [map_gripper_eq, if_neg hnot]
      exact min_le_right _ _
  · intro h
    rw [map_gripper_eq, if_pos h]

/-- Witness for C9 at the configured pair `open = 50`, `close = 0`
(`GRIPPER_CFG`), raw angle `50`. -/
theorem c9_map_gripper_spec_witness :
    map_gripper 50 0 50 = 0 ∧ map_gripper 50 0 0 = 1 :=
  ⟨((c9_map_gripper_spec 50 0 50).1 (by norm_num)).2.1,
   ((c9_map_gripper_spec 50 0 50).1 (by norm_num)).2.2.1⟩

/-- C10: a tick never dispatches a partial command — if any of the seven
joint angles is unavailable the tick sends nothing, and an action is
dispatched only when all seven are available. -/
theorem c10_no_partial_command (open_deg close_deg : ℚ) (dir_cfg : List ℚ)
    (leader_angles : Int → Option ℚ) :
    ((∃ i ∈ ids7, leader_angles i = none) →
      process_single_arm open_deg close_deg dir_cfg leader_angles = none) ∧
    ((process_single_arm open_deg close_deg dir_cfg leader_angles).isSome = true →
      ∀ i ∈ ids7, (leader_angles i).isSome = true) := by
  constructor
  · rintro ⟨i, hi, hnone⟩
    have hg : (ids7.map leader_angles).any (fun a => a.isNone) = true := by
      simp only [List.any_eq_true, List.mem_map]
      exact ⟨none, ⟨i, hi, hnone⟩, rfl⟩
    simp [process_single_arm, hg]
  · intro h i hi
    rcases hO : leader_angles i with _ | v
    · exfalso
      have hg : (ids7.map leader_angles).any (fun a => a.isNone) = true := by
        simp only [List.any_eq_true, List.mem_map]
        exact ⟨none, ⟨i, hi, hO⟩, rfl⟩
      rw [process_single_arm, if_pos hg] at h
      simp at h
    · simp [hO]

/-- Witness for C10: joint 1 unavailable on an otherwise healthy tick,
at the `GRIPPER_CFG`/`DIR_CFG` values of `teleop_dual_main.py`. -/
theorem c10_no_partial_command_witness :
    process_single_arm 50 0 [1, 1, 1, 1, 1, 1, 1]
      (fun i => if i = 1 then none else some 0) = none :=
  (c10_no_partial_command 50 0 [1, 1, 1, 1, 1, 1, 1]
      (fun i => if i = 1 then none else some 0)).1
    ⟨1, by decide, by simp⟩

/-- Unfolding equation for `find_port` on a cons cell. -/
theorem find_port_cons (identifier : String) (p : PortInfo) (ps : List PortInfo) :
    find_port identifier (p :: ps) =
      if p.serial_number == some identifier then some p.device
      else
        match p.location with
        | some loc =>
          if !loc.isEmpty && str_in identifier loc then some p.device
          else find_port identifier ps
        | none => find_port identifier ps :=
  rfl

/-- Unfolding equation for `auto_find` on a cons cell (`let`s reduced). -/
theorem auto_find_cons (target_id : String) (p : PortInfo) (ps : List PortInfo) :
    auto_find target_id (p :: ps) =
      if target_id == p.serial_number.getD "" then some p.device
      else if target_id == p.location.getD "" then some p.device
      else auto_find target_id ps :=
  rfl

/-- C1 (counterexample): with the exact-serial device enumerated second,
`find_port` returns the earlier substring-location device, while the
claimed overall exact-serial priority (`find_port_claim`) would return
the serial-matching one. -/
theorem c1_priority_counterexample :
    find_port "ABC123"
      [⟨"/dev/ttyUSB0", none, some "x-ABC123-y"⟩,
       ⟨"/dev/ttyUSB1", some "ABC123", some "1-2"⟩] = some "/dev/ttyUSB0" ∧
    find_port_claim "ABC123"
      [⟨"/dev/ttyUSB0", none, some "x-ABC123-y"⟩,
       ⟨"/dev/ttyUSB1", some "ABC123", some "1-2"⟩] = some "/dev/ttyUSB1" ∧
    find_port "ABC123"
      [⟨"/dev/ttyUSB0", none, some "x-ABC123-y"⟩,
       ⟨"/dev/ttyUSB1", some "ABC123", some "1-2"⟩] ≠
      find_port_claim "ABC123"
      [⟨"/dev/ttyUSB0", none, some "x-ABC123-y"⟩,
       ⟨"/dev/ttyUSB1", some "ABC123", some "1-2"⟩] := by
  decide

/-- C1 (amended): each finder returns the first enumerated device that
matches either of its two tests — exact serial, then location (substring
containment in `find_port`, exact equality in `auto_find`) — so a
location match on an earlier device wins over an exact-serial match on a
later one. -/
theorem c1_first_match_resolution (identifier : String) (ports : List PortInfo) :
    find_port identifier ports =
      (ports.find? fun p =>
        (p.serial_number == some identifier) ||
        (match p.location with
         | some loc => !loc.isEmpty && str_in identifier loc
         | none => false)).map (fun p => p.device) ∧
    auto_find identifier ports =
      (ports.find? fun p =>
        (identifier == p.serial_number.getD "") ||
        (identifier == p.location.getD "")).map (fun p => p.device) := by
  induction ports with
  | nil => exact ⟨rfl, rfl⟩
  | cons p ps ih =>
    constructor
    · rw [find_port_cons]
      by_cases hsn : (p.serial_number == some identifier) = true
      · rw [if_pos hsn, List.find?_cons_of_pos _ (by simp [hsn])]
        rfl
      · have hsn' : (p.serial_number == some identifier) = false := by
          simpa using hsn
        rw [if_neg hsn]
        cases hl : p.location with
        | none =>
          rw [List.find?_cons_of_neg _ (by simp [hsn', hl])]
          exact ih.1
        | some loc =>
          show (if !loc.isEmpty && str_in identifier loc then some p.device
            else find_port identifier ps) = _
          by_cases hs : (!loc.isEmpty && str_in identifier loc) = true
          · rw [if_pos hs, List.find?_cons_of_pos _ (by simp [hsn', hl, hs])]
            rfl
          · have hs' : (!loc.isEmpty && str_in identifier loc) = false := by
              simpa using hs
            rw [if_neg hs, List.find?_cons_of_neg _ (by simp [hsn', hl, hs'])]
            exact ih.1
    · rw [auto_find_cons]
      by_cases h1 : (identifier == p.serial_number.getD "") = true
      · rw [if_pos h1, List.find?_cons_of_pos _ (by simp [h1])]
        rfl
      · have h1' : (identifier == p.serial_number.getD "") = false := by
          simpa using h1
        rw [if_neg h1]
        by_cases h2 : (identifier == p.location.getD "") = true
        · rw [if_pos h2, List.find?_cons_of_pos _ (by simp [h1', h2])]
          rfl
        · have h2' : (identifier == p.location.getD "") = false := by
            simpa using h2
          rw [if_neg h2, List.find?_cons_of_neg _ (by simp [h1', h2'])]
          exact ih.2

/-- C4: every failed frame parse collapses to the read sentinels
(`-1` for `get_position`, `none` for `get_feedback`); `get_position`
never produces any negative value other than `-1`; and the angle
computation maps the `-1` sentinel to `none` — never to an angle — while
every non-sentinel raw value yields an angle. -/
theorem c4_read_failure_sentinel (st : LeaderArm) (sid : Int) (stream : List Nat) :
    (read_response sid stream = none →
      get_position sid stream = -1 ∧ get_feedback sid stream = none) ∧
    (get_position sid stream = -1 ∨ 0 ≤ get_position sid stream) ∧
    angle_of st sid (-1) = none ∧
    (∀ raw : Int, raw ≠ -1 → (angle_of st sid raw).isSome = true) := by
  refine ⟨?_, ?_, ?_, ?_⟩
  · intro h
    exact ⟨by simp [get_position, h], by simp [get_feedback, h]⟩
  · rcases hres : read_response sid stream with _ | resp
    · left
      simp [get_position, hres]
    · rcases resp with _ | ⟨a, _ | ⟨b, _ | ⟨c, tl⟩⟩⟩
      · left
        simp [get_position, hres]
      · left
        simp [get_position, hres]
      · right
        simp only [get_position, hres]
        positivity
      · left
        simp [get_position, hres]
  · simp [angle_of]
  · intro raw hraw
    simp [angle_of, hraw]

/-- Witness for C4 on an empty byte stream (pure timeout). -/
theorem c4_read_failure_sentinel_witness :
    get_position 1 [] = -1 ∧ get_feedback 1 [] = none :=
  (c4_read_failure_sentinel ⟨"leader_config.json", [], [], []⟩ 1 []).1 rfl

/-- Replacing one list element changes the sum by the difference of the
old and new values. -/
theorem sum_set_add (l : List Nat) (i : Nat) (b : Nat) (h : i < l.length) :
    (l.set i b).sum + l.get ⟨i, h⟩ = l.sum + b := by
  induction l generalizing i with
  | nil => simp at h
  | cons a tl ih =>
    cases i with
    | zero =>
      simp [List.set]
      omega
    | succ n =>
      have hn : n < tl.length := by simpa using h
      have := ih n hn
      simp only [List.set, List.sum_cons, List.get]
      omega

/-- Decoding a well-formed response frame: header, id, length
`params.length + 2`, error byte, params, trailing checksum byte — the
parser returns exactly the params. -/
theorem read_response_decode (sid err chk : Nat) (params : List Nat) :
    read_response (sid : Int)
      ([255, 255, sid, params.length + 2, err] ++ params ++ [chk]) = some params := by
  have h1 : ([255, 255, sid, params.length + 2, err] : List Nat) ++ params ++ [chk]
      = 255 :: 255 :: (sid :: (params.length + 2) :: (err :: (params ++ [chk]))) := by
    simp
  have hseek : seek_header
      (255 :: 255 :: (sid :: (params.length + 2) :: (err :: (params ++ [chk]))))
      = some (sid :: (params.length + 2) :: (err :: (params ++ [chk]))) := by
    simp [seek_header]
  rw [h1]
  unfold read_response
  rw [hseek]
  have hlen : ¬ ((err :: (params ++ [chk])).length < params.length + 2) := by
    simp
  have htake : (err :: (params ++ [chk])).take (params.length + 2)
      = err :: (params ++ [chk]) := by
    apply List.take_of_length_le
    simp
  simp [htake, List.dropLast_concat]

/-- C3: a response whose trailing byte is the checksum
`(~(id + length + error + Σ params)) & 0xFF` decodes to its params and
passes the checksum comparison, and flipping any single params byte of
such a frame makes the comparison fail. -/
theorem c3_checksum_roundtrip_and_flip (sid err : Nat) (params : List Nat) :
    read_response (sid : Int)
      ([255, 255, sid, params.length + 2, err] ++ params ++
        [calc_checksum ([sid, params.length + 2, err] ++ params)]) = some params ∧
    response_checksum_ok sid (params.length + 2) err params
      (calc_checksum ([sid, params.length + 2, err] ++ params)) = true ∧
    (∀ (i : Nat) (hi : i < params.length) (b : Nat),
      b < 256 → params.get ⟨i, hi⟩ < 256 → b ≠ params.get ⟨i, hi⟩ →
      response_checksum_ok sid (params.length + 2) err (params.set i b)
        (calc_checksum ([sid, params.length + 2, err] ++ params)) = false) := by
  refine ⟨read_response_decode sid err _ params, by simp [response_checksum_ok], ?_⟩
  intro i hi b hb ha hne
  have hsum := sum_set_add params i b hi
  simp only [response_checksum_ok, calc_checksum, List.sum_append, List.sum_cons,
    List.sum_nil, beq_eq_false_iff_ne, ne_eq]
  intro hEq
  have hmod : (sid + (params.length + 2 + (err + (params.set i b).sum))) % 256
      = (sid + (params.length + 2 + (err + params.sum))) % 256 := by
    omega
  omega

/-- Witness for C3: servo 1, error byte 0, params `[2, 3]`; flipping the
first params byte to `4` is caught by the checksum comparison. -/
theorem c3_checksum_roundtrip_and_flip_witness :
    read_response (1 : Int)
      ([255, 255, 1, 4, 0] ++ [2, 3] ++ [calc_checksum ([1, 4, 0] ++ [2, 3])]) = some [2, 3] ∧
    response_checksum_ok 1 4 0 [4, 3] (calc_checksum ([1, 4, 0] ++ [2, 3])) = false :=
  ⟨(c3_checksum_roundtrip_and_flip 1 0 [2, 3]).1,
   (c3_checksum_roundtrip_and_flip 1 0 [2, 3]).2.2 0 (by decide) 4
     (by decide) (by decide) (by decide)⟩

/-- Unfolding equation for `calibrate_home` (the `let` reduced away). -/
theorem calibrate_home_eq (st : LeaderArm) (reads : Int → Int) :
    calibrate_home st reads =
      if ((get_raw_positions st reads).map Prod.snd).contains (-1) then
        ⟨st, false, false⟩
      else
        ⟨{ st with home_offsets := get_raw_positions st reads }, true, true⟩ :=
  rfl

/-- The sentinel guard of `calibrate_home` fires exactly when some
configured servo read back `-1`. -/
theorem contains_sentinel_iff (st : LeaderArm) (reads : Int → Int) :
    ((get_raw_positions st reads).map Prod.snd).contains (-1) = true ↔
      ∃ id ∈ st.servo_ids, reads id = -1 := by
  simp only [get_raw_positions, List.map_map, List.contains, List.elem_iff,
    List.mem_map, Function.comp]

/-- Looking up any listed id in the freshly built raw-position pairs
yields that id's reading. -/
theorem lookup_map_self (ids : List Int) (reads : Int → Int) (id : Int)
    (h : id ∈ ids) :
    (ids.map fun sid => (sid, reads sid)).lookup id = some (reads id) := by
  induction ids with
  | nil => simp at h
  | cons a tl ih =>
    by_cases hc : id = a
    · subst hc
      simp [List.lookup]
    · have htl : id ∈ tl := by
        rcases List.mem_cons.mp h with h1 | h1
        · exact absurd h1 hc
        · exact h1
      have hbeq : (id == a) = false := beq_eq_false_iff_ne.mpr hc
      simp [List.lookup, hbeq, ih htl]

/-- C5: when any configured servo reads back the `-1` sentinel,
`calibrate_home` returns the state untouched, persists nothing and
reports failure; when none does, every configured id's offset becomes
its current raw reading, nothing else changes, and the result persists
with success. -/
theorem c5_calibrate_home_atomic (st : LeaderArm) (reads : Int → Int) :
    ((∃ id ∈ st.servo_ids, reads id = -1) →
      calibrate_home st reads = ⟨st, false, false⟩) ∧
    ((∀ id ∈ st.servo_ids, reads id ≠ -1) →
      (∀ id ∈ st.servo_ids,
        (calibrate_home st reads).state.home_offsets.lookup id = some (reads id)) ∧
      (calibrate_home st reads).state.directions = st.directions ∧
      (calibrate_home st reads).state.config_file = st.config_file ∧
      (calibrate_home st reads).persisted = true ∧
      (calibrate_home st reads).success = true) := by
  constructor
  · intro h
    rw [calibrate_home_eq, if_pos ((contains_sentinel_iff st reads).mpr h)]
  · intro h
    have hg : ¬ (((get_raw_positions st reads).map Prod.snd).contains (-1) = true) := by
      intro hc
      rcases (contains_sentinel_iff st reads).mp hc with ⟨id, hid, hread⟩
      exact h id hid hread
    rw [calibrate_home_eq, if_neg hg]
    exact ⟨fun id hid => lookup_map_self st.servo_ids reads id hid, rfl, rfl, rfl, rfl⟩

/-- Witness for C5: servo 1 of two returns the sentinel; `calibrate_home`
aborts without mutation or persistence. -/
theorem c5_calibrate_home_atomic_witness :
    calibrate_home (init_arm [1, 2] "leader_config.json")
      (fun id => if id = 1 then -1 else 100) =
      ⟨init_arm [1, 2] "leader_config.json", false, false⟩ :=
  (c5_calibrate_home_atomic (init_arm [1, 2] "leader_config.json")
      (fun id => if id = 1 then -1 else 100)).1 ⟨1, by decide, by decide⟩

/-- C7 (counterexample): a file whose `home_offsets` section converts but
whose `directions` section has a key `int()` rejects makes `load_config`
apply the offsets from the file while keeping the prior directions — a
partial merge the claim rules out. -/
theorem c7_partial_merge_counterexample :
    (load_config (init_arm [1] "leader_config.json")
      (FileState.parsed [("1", 100)] [("x", 1)])).home_offsets = [(1, 100)] ∧
    (load_config (init_arm [1] "leader_config.json")
      (FileState.parsed [("1", 100)] [("x", 1)])).directions =
      (init_arm [1] "leader_config.json").directions ∧
    load_config (init_arm [1] "leader_config.json")
      (FileState.parsed [("1", 100)] [("x", 1)]) ≠
      init_arm [1] "leader_config.json" := by
  decide

/-- C7 (amended): a missing or JSON-unparsable file leaves the whole
state untouched, and a key-conversion failure in the `home_offsets`
section leaves the whole state untouched; but once `home_offsets`
converts, it is assigned even when the `directions` section then fails,
and only when both convert are both sections applied. -/
theorem c7_load_tolerance_amended (st : LeaderArm)
    (offs dirs : List (String × Int)) :
    load_config st FileState.missing = st ∧
    load_config st FileState.unparsable = st ∧
    (convert_keys offs = none → load_config st (FileState.parsed offs dirs) = st) ∧
    (∀ offMap, convert_keys offs = some offMap → convert_keys dirs = none →
      load_config st (FileState.parsed offs dirs) =
        { st with home_offsets := offMap }) ∧
    (∀ offMap dirMap, convert_keys offs = some offMap →
      convert_keys dirs = some dirMap →
      load_config st (FileState.parsed offs dirs) =
        { st with home_offsets := offMap, directions := dirMap }) := by
  refine ⟨rfl, rfl, ?_, ?_, ?_⟩
  · intro h
    simp [load_config, h]
  · intro offMap h1 h2
    simp [load_config, h1, h2]
  · intro offMap dirMap h1 h2
    simp [load_config, h1, h2]

/-- Witness for C7: a file whose offsets section already fails key
conversion leaves the defaults fully in place. -/
theorem c7_load_tolerance_amended_witness :
    load_config (init_arm [1] "leader_config.json")
      (FileState.parsed [("a", 1)] []) = init_arm [1] "leader_config.json" :=
  (c7_load_tolerance_amended (init_arm [1] "leader_config.json")
      [("a", 1)] []).2.2.1 (by decide)

/-- Membership in a Python-style dict assignment comes from the old dict
or is the new pair. -/
theorem mem_dict_set (d : List (Int × Int)) (k v : Int) (p : Int × Int)
    (hp : p ∈ dict_set d k v) : p ∈ d ∨ p = (k, v) := by
  rw [dict_set] at hp
  split_ifs at hp with hc
  · rcases List.mem_map.mp hp with ⟨q, hq, hfq⟩
    by_cases hqk : (q.1 == k) = true
    · rw [if_pos hqk] at hfq
      right
      exact hfq.symm
    · rw [if_neg hqk] at hfq
      left
      rw [← hfq]
      exact hq
  · rcases List.mem_append.mp hp with h | h
    · left
      exact h
    · right
      simpa using h

/-- C8 (counterexample): loading a file whose directions section holds
the value `5` stores `5` as a direction, so the `±1` invariant fails for
states reachable once `load_config` runs on arbitrary file contents. -/
theorem c8_direction_invariant_counterexample :
    (load_config (init_arm [1] "leader_config.json")
      (FileState.parsed [] [("1", 5)])).directions = [(1, 5)] ∧
    ¬ (∀ p ∈ (load_config (init_arm [1] "leader_config.json")
        (FileState.parsed [] [("1", 5)])).directions, p.2 = 1 ∨ p.2 = -1) := by
  decide

/-- C8 (amended): along every sequence of construction,
`calibrate_home` and `set_direction` every stored direction is `±1`, and
`set_direction` rejects any other value without mutation or persistence;
the invariant is not maintained by `load_config` on arbitrary files. -/
theorem c8_direction_invariant_amended :
    (∀ st : LeaderArm, Reachable st → DirInv st) ∧
    (∀ (st : LeaderArm) (servo_id d : Int), d ≠ 1 → d ≠ -1 →
      set_direction st servo_id d = (st, false)) := by
  constructor
  · intro st h
    induction h with
    | init ids cfg =>
      intro p hp
      simp only [init_arm] at hp
      rcases List.mem_map.mp hp with ⟨id, _, rfl⟩
      left
      rfl
    | calib st1 reads hR ih =>
      intro p hp
      have hd : (calibrate_home st1 reads).state.directions = st1.directions := by
        rw [calibrate_home_eq]
        split <;> rfl
      rw [hd] at hp
      exact ih p hp
    | setdir st1 id d hR ih =>
      intro p hp
      unfold set_direction at hp
      split_ifs at hp with hd
      · rcases mem_dict_set st1.directions id d p hp with h1 | rfl
        · exact ih p h1
        · exact hd
      · exact ih p hp
  · intro st id d h1 h2
    simp [set_direction, h1, h2]

/-- Witness for C8: the freshly constructed default state satisfies the
invariant, and `set_direction` with the value `5` is a rejected no-op. -/
theorem c8_direction_invariant_amended_witness :
    DirInv (init_arm [1, 2, 3, 4, 5, 6, 7] "leader_config.json") ∧
    set_direction (init_arm [1] "leader_config.json") 1 5 =
      (init_arm [1] "leader_config.json", false) :=
  ⟨c8_direction_invariant_amended.1 _
      (Reachable.init [1, 2, 3, 4, 5, 6, 7] "leader_config.json"),
   c8_direction_invariant_amended.2 (init_arm [1] "leader_config.json") 1 5
      (by decide) (by decide)⟩

end LeaderArmSt3215
